import Mathlib

/-!
Shallow embedding of the criticality-scoring and alert-deduplication pipeline
of `src/alert_system.py` (Cybersecurity-News-WebScraper), together with
theorems settling the specification claims about it.

Conventions of the embedding:
* Python strings are `String`; Python substring search (`pat in s`) is
  `strContains`, Python `str.lower()` is `pyToLower` (ASCII case folding,
  which covers every keyword and source name in the program).
* Machine state (the `alert_history.json` file) is passed explicitly:
  `check_for_alerts` receives the loaded history and returns the history it
  saves (`saved = none` models "no save performed").
* The external Twilio sender (`send_sms_alert`) is an oracle parameter
  `send : String → String → Bool` ((phone, message) ↦ success); the calls the
  dispatcher actually makes are returned in the `sends` field, in order.
* Fallible Python code is modelled with `Except`: string concatenation with a
  non-`str` operand raises `TypeError`, modelled as `Except.error`.
-/

/-- Python `pat in s` substring test on strings (`in` on two `str` values is
containment of `pat` as a contiguous substring of `s`). -/
def strContains (s pat : String) : Bool := decide (pat.data <:+: s.data)

/-- Python `str.lower()` (ASCII folding; every keyword and source name in the
program is ASCII). -/
def pyToLower (s : String) : String := ⟨s.data.map Char.toLower⟩

/-- `severity_high_keywords` from `is_critical_news` (src/alert_system.py:49). -/
def severity_high_keywords : List String :=
  ["critical", "urgent", "emergency", "severe", "zero-day", "zero day",
   "ransomware", "remote code execution", "data breach", "national security"]

/-- `severity_medium_keywords` (src/alert_system.py:54). -/
def severity_medium_keywords : List String :=
  ["vulnerability", "exploit", "breach", "attack", "compromise", "warning",
   "malware", "backdoor", "data leak", "hack", "phishing campaign"]

/-- `severity_low_keywords` (src/alert_system.py:59). -/
def severity_low_keywords : List String :=
  ["alert", "security update", "patch", "advisory", "update available",
   "security issue", "cybersecurity", "threat"]

/-- `priority_sources` (src/alert_system.py:68). -/
def priority_sources : List String := ["CERT-In", "NCIIPC", "I4C", "NASSCOM"]

/-- `medium_priority_sources` (src/alert_system.py:69). -/
def medium_priority_sources : List String :=
  ["The Economic Times", "The Hindu", "Times of India", "India Today"]

/-- `combined_text = (headline + " " + content).lower()` (src/alert_system.py:72). -/
def combined_text (headline content : String) : String :=
  pyToLower (headline ++ " " ++ content)

/-- `high_matches` (src/alert_system.py:75): high-severity keywords occurring in
the combined text, in vocabulary order. -/
def high_matches (headline content : String) : List String :=
  severity_high_keywords.filter
    (fun k => strContains (combined_text headline content) (pyToLower k))

/-- `medium_matches` (src/alert_system.py:76). -/
def medium_matches (headline content : String) : List String :=
  severity_medium_keywords.filter
    (fun k => strContains (combined_text headline content) (pyToLower k))

/-- `low_matches` (src/alert_system.py:77). -/
def low_matches (headline content : String) : List String :=
  severity_low_keywords.filter
    (fun k => strContains (combined_text headline content) (pyToLower k))

/-- `all_matches = high_matches + medium_matches + low_matches`
(src/alert_system.py:80). -/
def all_matches (headline content : String) : List String :=
  high_matches headline content ++ medium_matches headline content ++
    low_matches headline content

/-- `is_critical_news(headline, content, source)` (src/alert_system.py:43-104):
the boolean criticality verdict and its reason string, an if/elif chain tried
in source order. -/
def is_critical_news (headline content source : String) : Bool × String :=
  if source ∈ priority_sources ∧ 1 ≤ (high_matches headline content).length then
    (true, "High-priority source (" ++ source ++ ") with critical keyword: " ++
      (high_matches headline content).headD "")
  else if source ∈ priority_sources ∧ 2 ≤ (medium_matches headline content).length then
    (true, "High-priority source (" ++ source ++
      ") with multiple medium-severity keywords: " ++
      String.intercalate ", " ((medium_matches headline content).take 2))
  else if source ∈ medium_priority_sources ∧
      1 ≤ (high_matches headline content).length then
    (true, "Medium-priority source (" ++ source ++ ") with high-severity keyword: " ++
      (high_matches headline content).headD "")
  else if 1 ≤ (high_matches headline content).length ∧
      1 ≤ (medium_matches headline content).length then
    (true, "High and medium severity keywords: " ++
      (high_matches headline content).headD "" ++ ", " ++
      (medium_matches headline content).headD "")
  else if 3 ≤ (all_matches headline content).length then
    (true, "Multiple security keywords: " ++
      String.intercalate ", " ((all_matches headline content).take 3))
  else (false, "")

/-- A Python value appearing in a `headline`/`content` field of a scraped row:
either a `str` or some non-string value (e.g. a pandas `NaN` float, or `None`).
Used where the source inspects or mishandles non-string fields. -/
inductive Cell where
  | str (s : String)
  | nonstr
deriving DecidableEq

/-- `is_critical_news` as invoked on raw row fields: the very first statement
executed on the fields is the concatenation `headline + " " + content`
(src/alert_system.py:72), which raises `TypeError` in Python whenever either
operand is not a `str`; there is no `isinstance` guard in this function.
Modelled as `Except.error "TypeError"` in that case, and as the pure
`is_critical_news` otherwise. -/
def is_critical_news_checked (headline content : Cell) (source : String) :
    Except String (Bool × String) :=
  match headline, content with
  | .str h, .str c => .ok (is_critical_news h c source)
  | _, _ => .error "TypeError"

/-- One normalized news row as consumed by `check_for_alerts` (a DataFrame row
with string `source`, `headline`, `content`, `date` and optional `url`). -/
structure NewsRecord where
  source : String
  headline : String
  content : String
  date : String
  url : Option String
deriving DecidableEq

/-- `news_id = f"{row['source']}:{row['headline']}"` (src/alert_system.py:177),
the deduplication identity key. -/
def news_id (row : NewsRecord) : String := row.source ++ ":" ++ row.headline

/-- `format_alert_message(news_item)` (src/alert_system.py:106-119). -/
def format_alert_message (row : NewsRecord) : String :=
  let message := "SECURITY ALERT: " ++ row.source ++ "\n\n" ++ row.headline ++
    "\n\nDate: " ++ row.date
  match row.url with
  | some u => message ++ "\n\nMore info: " ++ u
  | none => message

/-- The well-formed contents of `alert_history.json` as `check_for_alerts`
reads and writes them: the `alerts_sent` list of identity keys and the
`last_check` ISO timestamp (absent on a fresh history). -/
structure AlertHistory where
  alerts_sent : List String
  last_check : Option String
deriving DecidableEq

/-- Accumulator of the `for _, row in news_df.iterrows()` loop of
`check_for_alerts` (src/alert_system.py:172-198): `critical_items` and the
`alerts_sent` counter are the loop locals; `already` is the
`already_alerted_ids` list (mutated in place by `append`); `sends` instruments
the calls made to `send_sms_alert` as `(news_id, success)` pairs, in order. -/
structure LoopState where
  critical_items : List NewsRecord
  alerts_sent : Nat
  already : List String
  sends : List (String × Bool)
deriving DecidableEq

/-- The loop body of `check_for_alerts` (src/alert_system.py:175-198), run over
the remaining rows. `send` is the external Twilio sender oracle
(phone, message ↦ success); `phone` is the (non-`None`) `phone_number`
argument, re-tested for truthiness (`if phone_number:`) before each send, so an
empty string classifies but never sends. The `reason` component of the verdict
is only logged by the source and is not consumed here. -/
def alertLoop (send : String → String → Bool) (phone : String) :
    List NewsRecord → LoopState → LoopState
  | [], st => st
  | row :: rest, st =>
    let nid := news_id row
    if nid ∈ st.already then
      alertLoop send phone rest st
    else if (is_critical_news row.headline row.content row.source).1 then
      let st1 : LoopState := { st with critical_items := st.critical_items ++ [row] }
      if phone ≠ "" then
        let success := send phone (format_alert_message row)
        if success then
          alertLoop send phone rest
            { st1 with
              alerts_sent := st1.alerts_sent + 1
              already := st1.already ++ [nid]
              sends := st1.sends ++ [(nid, true)] }
        else
          alertLoop send phone rest { st1 with sends := st1.sends ++ [(nid, false)] }
      else
        alertLoop send phone rest st1
    else
      alertLoop send phone rest st

/-- Observable outcome of one `check_for_alerts` call: its return value
`(critical_items, alerts_sent > 0)`, the history snapshot written by
`save_alert_history` (`none` when the early return skips the save), and the
instrumented sequence of sender invocations. -/
structure CheckResult where
  critical_items : List NewsRecord
  any_sent : Bool
  saved : Option AlertHistory
  sends : List (String × Bool)
deriving DecidableEq

/-- `check_for_alerts(news_df, phone_number)` (src/alert_system.py:142-207)
with its external dependencies made explicit: `fromiso` models
`datetime.fromisoformat` (`none` = raises `ValueError`/`TypeError`), `isofmt`
models `datetime.isoformat`, `send` models `send_sms_alert`, `history` is the
value `load_alert_history()` produced, and `now` is `datetime.now()`.
The `_last_check` local mirrors lines 158-166: it is computed (with the
one-day-ago fallback `now - timedelta(days=1)` on a falsy or unparsable stored
value) and then never used by the rest of the function. -/
def check_for_alerts (fromiso : String → Option Int) (isofmt : Int → String)
    (send : String → String → Bool) (news : List NewsRecord)
    (phone_number : Option String) (history : AlertHistory) (now : Int) :
    CheckResult :=
  match phone_number with
  | none => { critical_items := [], any_sent := false, saved := none, sends := [] }
  | some phone =>
    let already_alerted_ids := history.alerts_sent
    let _last_check : Int :=
      match history.last_check with
      | some s => if s = "" then now - 86400 else (fromiso s).getD (now - 86400)
      | none => now - 86400
    let final := alertLoop send phone news
      { critical_items := [], alerts_sent := 0, already := already_alerted_ids,
        sends := [] }
    { critical_items := final.critical_items
      any_sent := decide (0 < final.alerts_sent)
      saved := some { alerts_sent := final.already, last_check := some (isofmt now) }
      sends := final.sends }

/-- A JSON document, as `json.load` can return it. -/
inductive Json where
  | null
  | bool (b : Bool)
  | num (n : Int)
  | str (s : String)
  | arr (elems : List Json)
  | obj (fields : List (String × Json))

/-- The fresh empty history document
`{'alerts_sent': [], 'last_check': None}` (src/alert_system.py:30). -/
def freshHistoryJson : Json :=
  .obj [("alerts_sent", .arr []), ("last_check", .null)]

/-- State of the `alert_history.json` backing file as `load_alert_history`
observes it: absent (`os.path.exists` false), unreadable (opening or
`json.load` raises), or readable and parsed to some JSON document `v`. -/
inductive StoreState where
  | absent
  | unreadable
  | parsed (v : Json)

/-- `load_alert_history()` (src/alert_system.py:24-33): returns the fresh
default when the file is absent, catches any read/parse exception and returns
the fresh default, and otherwise returns whatever document `json.load`
produced, unvalidated. -/
def load_alert_history : StoreState → Json
  | .absent => freshHistoryJson
  | .unreadable => freshHistoryJson
  | .parsed v => v

/-- A raw digest row: `get_critical_news_digest` re-reads `headline`/`content`
with an `isinstance(·, str)` guard (src/alert_system.py:339-340), so these
fields may be non-strings. -/
structure DigestRow where
  source : String
  headline : Cell
  content : Cell
deriving DecidableEq

/-- The `priority_sources` score dict of `get_critical_news_digest`
(src/alert_system.py:292-301). -/
def priority_source_scores : List (String × Int) :=
  [("CERT-In", 10), ("NCIIPC", 9), ("I4C", 8), ("NASSCOM", 7),
   ("The Economic Times", 5), ("The Hindu", 5), ("Times of India", 5),
   ("India Today", 5)]

/-- The `severity_scores` keyword-weight dict (src/alert_system.py:304-334). -/
def severity_scores : List (String × Int) :=
  [("critical", 10), ("urgent", 10), ("emergency", 10), ("severe", 9),
   ("zero-day", 9), ("zero day", 9), ("ransomware", 8),
   ("remote code execution", 8), ("data breach", 8), ("national security", 8),
   ("vulnerability", 7), ("exploit", 7), ("breach", 6), ("attack", 6),
   ("compromise", 6), ("warning", 5), ("malware", 5), ("backdoor", 5),
   ("data leak", 5), ("hack", 5), ("phishing campaign", 5), ("alert", 4),
   ("security update", 3), ("patch", 3), ("advisory", 3),
   ("update available", 2), ("security issue", 2), ("cybersecurity", 1),
   ("threat", 1)]

/-- Python `dict.get(key, default)` on an insertion-ordered association list
with distinct keys. -/
def dictGet (d : List (String × Int)) (k : String) (default : Int) : Int :=
  match d.find? (fun p => p.1 == k) with
  | some p => p.2
  | none => default

/-- The per-row score of `get_critical_news_digest` (src/alert_system.py:337-350):
source priority points (`priority_sources.get(source, 0)`) plus the weight of
each severity keyword whose lowercase form occurs in the lowercased
`headline + " " + content`, counted once per keyword. Non-string fields are
treated as `""` by the `isinstance` guards. -/
def criticality_score (row : DigestRow) : Int :=
  let headline := match row.headline with | .str s => pyToLower s | .nonstr => ""
  let content := match row.content with | .str s => pyToLower s | .nonstr => ""
  let base : Int := dictGet priority_source_scores row.source 0
  let combined := headline ++ " " ++ content
  severity_scores.foldl
    (fun score p => if strContains combined (pyToLower p.1) then score + p.2 else score)
    base

/-- `scored_items` after the scoring loop (src/alert_system.py:337-356): each
row paired with its `criticality_score`, kept only when the score meets the
fixed threshold 10, in input order. -/
def scored_items (rows : List DigestRow) : List (DigestRow × Int) :=
  (rows.map (fun r => (r, criticality_score r))).filter (fun p => 10 ≤ p.2)

/-- One step of a stable descending insertion: the new element is placed after
every earlier element whose score is greater than or equal to its own. -/
def insertDesc (x : DigestRow × Int) : List (DigestRow × Int) → List (DigestRow × Int)
  | [] => [x]
  | y :: l => if x.2 ≤ y.2 then y :: insertDesc x l else x :: y :: l

/-- Model of `scored_items.sort(key=lambda x: x['criticality_score'],
reverse=True)` (src/alert_system.py:359): CPython's `list.sort` is a stable
sort, and with `reverse=True` elements with equal keys keep their original
relative order. -/
def sortDesc (l : List (DigestRow × Int)) : List (DigestRow × Int) :=
  l.foldl (fun acc x => insertDesc x acc) []

/-- `get_critical_news_digest(news_df, max_items)` (src/alert_system.py:269-362)
on an already-loaded list of rows: score, filter by the threshold, sort
descending by score (stably), and return the top `max_items`
(`scored_items[:max_items]`). -/
def get_critical_news_digest (rows : List DigestRow) (max_items : Nat) :
    List (DigestRow × Int) :=
  (sortDesc (scored_items rows)).take max_items

/-- Substring containment is transitive (used to relate overlapping keywords). -/
theorem strContains_trans {a b c : String}
    (h1 : strContains b a = true) (h2 : strContains c b = true) :
    strContains c a = true := by
  simp only [strContains, decide_eq_true_eq] at *
  exact h1.trans h2

/-- C8: the identity-key serialization `source + ":" + headline` is not
injective: the distinct records `("A:B", "C")` and `("A", "B:C")` share the
serialized key `"A:B:C"`, so deduplication can conflate different news items. -/
theorem news_id_not_injective :
    news_id { source := "A:B", headline := "C", content := "", date := "",
              url := none } =
      news_id { source := "A", headline := "B:C", content := "", date := "",
                url := none } ∧
    (("A:B", "C") : String × String) ≠ ("A", "B:C") := by
  constructor
  · rfl
  · decide

/-- C3: contrary to the specification ("missing/non-string `headline` or
`content` must not raise — treat as empty string"), `is_critical_news` raises
`TypeError` on a non-string field, because `headline + " " + content`
(src/alert_system.py:72) is evaluated with no `isinstance` guard. The second
conjunct shows the failure is exactly the non-string inputs: the error occurs
if and only if a field is not a `str`. -/
theorem is_critical_news_nonstring_raises :
    is_critical_news_checked Cell.nonstr (Cell.str "") "CERT-In" =
      Except.error "TypeError" ∧
    (∀ h c : Cell, ∀ s : String,
      (∃ e, is_critical_news_checked h c s = Except.error e) ↔
        (h = Cell.nonstr ∨ c = Cell.nonstr)) := by
  refine ⟨rfl, ?_⟩
  intro h c s
  cases h <;> cases c <;> simp [is_critical_news_checked]

/-- C7 counterexample: a backing file containing the valid JSON document `[]`
is structurally invalid as an alert history, yet `load_alert_history` returns
it unchanged instead of the fresh empty history. -/
theorem load_alert_history_invalid_not_fresh :
    load_alert_history (StoreState.parsed (Json.arr [])) = Json.arr [] ∧
    Json.arr [] ≠ freshHistoryJson := by
  refine ⟨rfl, fun hcontra => ?_⟩
  exact Json.noConfusion hcontra

/-- C7 amended: `load_alert_history` never propagates an error; it returns the
fresh empty history (`alerts_sent = []`, `last_check = None`) when the file is
absent or reading/parsing raises, but a successfully parsed JSON document is
returned as-is, even when structurally invalid. -/
theorem load_alert_history_amended :
    load_alert_history StoreState.absent = freshHistoryJson ∧
    load_alert_history StoreState.unreadable = freshHistoryJson ∧
    ∀ v, load_alert_history (StoreState.parsed v) = v :=
  ⟨rfl, rfl, fun _ => rfl⟩

/-- C4: `is_critical_news` applies the classification rules in the exact
precedence (a) PRIORITY source with a HIGH match, (b) PRIORITY source with two
MEDIUM matches, (c) MEDIUM_PRIORITY source with a HIGH match, (d) a HIGH and a
MEDIUM match, (e) three matches of any severity, (f) otherwise not critical
with empty reason — first matching rule wins and fixes the reason string. The
final conjuncts check the boundary: a PRIORITY-source record whose text matches
exactly one HIGH keyword and nothing else is critical via rule (a), while the
same text from an unclassified source is not critical. -/
theorem classifier_rule_precedence (h c s : String) :
    (s ∈ priority_sources ∧ 1 ≤ (high_matches h c).length →
      is_critical_news h c s = (true, "High-priority source (" ++ s ++
        ") with critical keyword: " ++ (high_matches h c).headD "")) ∧
    (¬(s ∈ priority_sources ∧ 1 ≤ (high_matches h c).length) →
      s ∈ priority_sources ∧ 2 ≤ (medium_matches h c).length →
      is_critical_news h c s = (true, "High-priority source (" ++ s ++
        ") with multiple medium-severity keywords: " ++
        String.intercalate ", " ((medium_matches h c).take 2))) ∧
    (¬(s ∈ priority_sources ∧ 1 ≤ (high_matches h c).length) →
      ¬(s ∈ priority_sources ∧ 2 ≤ (medium_matches h c).length) →
      s ∈ medium_priority_sources ∧ 1 ≤ (high_matches h c).length →
      is_critical_news h c s = (true, "Medium-priority source (" ++ s ++
        ") with high-severity keyword: " ++ (high_matches h c).headD "")) ∧
    (¬(s ∈ priority_sources ∧ 1 ≤ (high_matches h c).length) →
      ¬(s ∈ priority_sources ∧ 2 ≤ (medium_matches h c).length) →
      ¬(s ∈ medium_priority_sources ∧ 1 ≤ (high_matches h c).length) →
      1 ≤ (high_matches h c).length ∧ 1 ≤ (medium_matches h c).length →
      is_critical_news h c s = (true, "High and medium severity keywords: " ++
        (high_matches h c).headD "" ++ ", " ++ (medium_matches h c).headD "")) ∧
    (¬(s ∈ priority_sources ∧ 1 ≤ (high_matches h c).length) →
      ¬(s ∈ priority_sources ∧ 2 ≤ (medium_matches h c).length) →
      ¬(s ∈ medium_priority_sources ∧ 1 ≤ (high_matches h c).length) →
      ¬(1 ≤ (high_matches h c).length ∧ 1 ≤ (medium_matches h c).length) →
      3 ≤ (all_matches h c).length →
      is_critical_news h c s = (true, "Multiple security keywords: " ++
        String.intercalate ", " ((all_matches h c).take 3))) ∧
    (¬(s ∈ priority_sources ∧ 1 ≤ (high_matches h c).length) →
      ¬(s ∈ priority_sources ∧ 2 ≤ (medium_matches h c).length) →
      ¬(s ∈ medium_priority_sources ∧ 1 ≤ (high_matches h c).length) →
      ¬(1 ≤ (high_matches h c).length ∧ 1 ≤ (medium_matches h c).length) →
      ¬(3 ≤ (all_matches h c).length) →
      is_critical_news h c s = (false, "")) ∧
    is_critical_news "critical" "" "CERT-In" =
      (true, "High-priority source (CERT-In) with critical keyword: critical") ∧
    is_critical_news "critical" "" "The Daily Blog" = (false, "") := by
  refine ⟨?_, ?_, ?_, ?_, ?_, ?_, by decide, by decide⟩
  · intro ha
    unfold is_critical_news
    rw [if_pos ha]
  · intro hna hb
    unfold is_critical_news
    rw [if_neg hna, if_pos hb]
  · intro hna hnb hcnd
    unfold is_critical_news
    rw [if_neg hna, if_neg hnb, if_pos hcnd]
  · intro hna hnb hnc hd
    unfold is_critical_news
    rw [if_neg hna, if_neg hnb, if_neg hnc, if_pos hd]
  · intro hna hnb hnc hnd he
    unfold is_critical_news
    rw [if_neg hna, if_neg hnb, if_neg hnc, if_neg hnd, if_pos he]
  · intro hna hnb hnc hnd hne
    unfold is_critical_news
    rw [if_neg hna, if_neg hnb, if_neg hnc, if_neg hnd, if_neg hne]

/-- Witness for `classifier_rule_precedence`: rule (a) concretely decides a
PRIORITY-source record matching exactly the HIGH keyword "critical". -/
theorem classifier_rule_precedence_witness :
    is_critical_news "critical" "" "CERT-In" =
      (true, "High-priority source (CERT-In) with critical keyword: critical") := by
  have happ := (classifier_rule_precedence "critical" "" "CERT-In").1
    (by constructor
        · decide
        · decide)
  simpa using happ

/-- C10: the HIGH keyword "data breach" contains the MEDIUM keyword "breach"
as a substring, so any text containing "data breach" yields both a HIGH and a
MEDIUM match and is classified critical from every source — rule (a), (c) or
(d) fires depending on the source tier, and the final fallback is unreachable. -/
theorem data_breach_always_critical (h c s : String)
    (hct : strContains (combined_text h c) "data breach" = true) :
    (is_critical_news h c s).1 = true := by
  have hdb : "data breach" ∈ high_matches h c := by
    apply List.mem_filter.2
    refine ⟨by decide, ?_⟩
    have hres : pyToLower "data breach" = "data breach" := by decide
    rw [hres]
    exact hct
  have hbr : "breach" ∈ medium_matches h c := by
    apply List.mem_filter.2
    refine ⟨by decide, ?_⟩
    have hres : pyToLower "breach" = "breach" := by decide
    rw [hres]
    exact strContains_trans
      (by decide : strContains "data breach" "breach" = true) hct
  have hhi : 1 ≤ (high_matches h c).length := List.length_pos_of_mem hdb
  have hme : 1 ≤ (medium_matches h c).length := List.length_pos_of_mem hbr
  unfold is_critical_news
  split_ifs with h1 h2 h3 h4 h5
  · rfl
  · rfl
  · rfl
  · rfl
  · rfl
  · exact absurd ⟨hhi, hme⟩ h4

/-- Witness for `data_breach_always_critical` at a concrete unclassified
source. -/
theorem data_breach_always_critical_witness :
    strContains (combined_text "data breach" "") "data breach" = true ∧
    (is_critical_news "data breach" "" "Some Random Blog").1 = true :=
  ⟨by decide, data_breach_always_critical "data breach" "" "Some Random Blog"
    (by decide)⟩

/-- With an empty (falsy) phone string, the dispatch loop still classifies but
never sends: the counter, the already-alerted list and the send log are
untouched (src/alert_system.py:191 re-tests `if phone_number:`). -/
theorem alertLoop_empty_phone (send : String → String → Bool) :
    ∀ (news : List NewsRecord) (st : LoopState),
      (alertLoop send "" news st).alerts_sent = st.alerts_sent ∧
      (alertLoop send "" news st).already = st.already ∧
      (alertLoop send "" news st).sends = st.sends := by
  intro news
  induction news with
  | nil => intro st; exact ⟨rfl, rfl, rfl⟩
  | cons row rest ih =>
    intro st
    simp only [alertLoop]
    by_cases hmem : news_id row ∈ st.already
    · rw [if_pos hmem]; exact ih st
    · rw [if_neg hmem]
      by_cases hcrit : (is_critical_news row.headline row.content row.source).1 = true
      · rw [if_pos hcrit]
        rw [if_neg (by simp : ¬("" : String) ≠ "")]
        exact ih _
      · rw [if_neg hcrit]; exact ih st

/-- Loop invariant of `alertLoop`: the run only appends — `critical_items`,
`already` and `sends` each grow by some extension — every appended
critical item and every attempted send has a key that was not yet in the
already-alerted list, and a key enters the already-alerted list exactly when a
send for it succeeded. -/
theorem alertLoop_ext (send : String → String → Bool) (phone : String) :
    ∀ (news : List NewsRecord) (st : LoopState),
      ∃ extC extA extS,
        (alertLoop send phone news st).critical_items = st.critical_items ++ extC ∧
        (alertLoop send phone news st).already = st.already ++ extA ∧
        (alertLoop send phone news st).sends = st.sends ++ extS ∧
        (∀ r ∈ extC, news_id r ∉ st.already) ∧
        (∀ k b, (k, b) ∈ extS → k ∉ st.already) ∧
        (∀ k, k ∈ extA ↔ (k, true) ∈ extS) := by
  intro news
  induction news with
  | nil =>
    intro st
    refine ⟨[], [], [], by simp [alertLoop], by simp [alertLoop],
      by simp [alertLoop], by simp, by simp, by simp⟩
  | cons row rest ih =>
    intro st
    simp only [alertLoop]
    by_cases hmem : news_id row ∈ st.already
    · rw [if_pos hmem]; exact ih st
    · rw [if_neg hmem]
      by_cases hcrit : (is_critical_news row.headline row.content row.source).1 = true
      · rw [if_pos hcrit]
        by_cases hph : phone ≠ ""
        · rw [if_pos hph]
          by_cases hs : send phone (format_alert_message row) = true
          · rw [if_pos hs]
            obtain ⟨extC, extA, extS, e1, e2, e3, p1, p2, p3⟩ := ih
              { critical_items := st.critical_items ++ [row]
                alerts_sent := st.alerts_sent + 1
                already := st.already ++ [news_id row]
                sends := st.sends ++ [(news_id row, true)] }
            refine ⟨row :: extC, news_id row :: extA,
              (news_id row, true) :: extS, ?_, ?_, ?_, ?_, ?_, ?_⟩
            · rw [e1]; simp
            · rw [e2]; simp
            · rw [e3]; simp
            · intro r hr
              rcases List.mem_cons.1 hr with rfl | hr'
              · exact hmem
              · intro hk
                exact p1 r hr' (List.mem_append_left _ hk)
            · intro k b hkb
              rcases List.mem_cons.1 hkb with heq | hkb'
              · rw [Prod.mk.injEq] at heq
                obtain ⟨rfl, rfl⟩ := heq
                exact hmem
              · intro hk
                exact p2 k b hkb' (List.mem_append_left _ hk)
            · intro k
              simp only [List.mem_cons, Prod.mk.injEq, and_true]
              constructor
              · rintro (rfl | hk)
                · exact Or.inl rfl
                · exact Or.inr ((p3 k).1 hk)
              · rintro (rfl | hk)
                · exact Or.inl rfl
                · exact Or.inr ((p3 k).2 hk)
          · rw [if_neg hs]
            obtain ⟨extC, extA, extS, e1, e2, e3, p1, p2, p3⟩ := ih
              { critical_items := st.critical_items ++ [row]
                alerts_sent := st.alerts_sent
                already := st.already
                sends := st.sends ++ [(news_id row, false)] }
            refine ⟨row :: extC, extA, (news_id row, false) :: extS,
              ?_, ?_, ?_, ?_, ?_, ?_⟩
            · rw [e1]; simp
            · rw [e2]
            · rw [e3]; simp
            · intro r hr
              rcases List.mem_cons.1 hr with rfl | hr'
              · exact hmem
              · exact p1 r hr'
            · intro k b hkb
              rcases List.mem_cons.1 hkb with heq | hkb'
              · rw [Prod.mk.injEq] at heq
                obtain ⟨rfl, rfl⟩ := heq
                exact hmem
              · exact p2 k b hkb'
            · intro k
              simp only [List.mem_cons, Prod.mk.injEq]
              constructor
              · intro hk
                exact Or.inr ((p3 k).1 hk)
              · rintro (⟨-, hcontra⟩ | hk)
                · exact Bool.noConfusion hcontra
                · exact (p3 k).2 hk
        · rw [if_neg hph]
          obtain ⟨extC, extA, extS, e1, e2, e3, p1, p2, p3⟩ := ih
            { critical_items := st.critical_items ++ [row]
              alerts_sent := st.alerts_sent
              already := st.already
              sends := st.sends }
          refine ⟨row :: extC, extA, extS, ?_, ?_, ?_, ?_, ?_, ?_⟩
          · rw [e1]; simp
          · rw [e2]
          · rw [e3]
          · intro r hr
            rcases List.mem_cons.1 hr with rfl | hr'
            · exact hmem
            · exact p1 r hr'
          · exact p2
          · exact p3
      · rw [if_neg hcrit]; exact ih st

/-- If every send for a given identity key fails, the key never enters the
already-alerted list during the loop, so whenever a critical record with that
key appears in the batch a (failing) send for it is actually attempted. -/
theorem alertLoop_attempt (send : String → String → Bool) (phone : String)
    (hph : phone ≠ "") (k : String)
    (hfail : ∀ r : NewsRecord, news_id r = k →
      send phone (format_alert_message r) = false) :
    ∀ (news : List NewsRecord) (st : LoopState), k ∉ st.already →
      ∀ r ∈ news, news_id r = k →
        (is_critical_news r.headline r.content r.source).1 = true →
        (k, false) ∈ (alertLoop send phone news st).sends := by
  intro news
  induction news with
  | nil => intro st _ r hr; exact absurd hr (List.not_mem_nil r)
  | cons row rest ih =>
    intro st hk r hr hid hcrit
    simp only [alertLoop]
    rcases List.mem_cons.1 hr with rfl | hr'
    · have hmem : news_id r ∉ st.already := by rw [hid]; exact hk
      rw [if_neg hmem, if_pos hcrit, if_pos hph]
      have hsendr : send phone (format_alert_message r) = false := hfail r hid
      rw [if_neg (by rw [hsendr]; exact Bool.false_ne_true)]
      obtain ⟨extC, extA, extS, e1, e2, e3, p1, p2, p3⟩ := alertLoop_ext send phone rest
        { critical_items := st.critical_items ++ [r]
          alerts_sent := st.alerts_sent
          already := st.already
          sends := st.sends ++ [(news_id r, false)] }
      rw [e3]
      apply List.mem_append_left
      apply List.mem_append_right
      rw [hid]
      exact List.mem_singleton.2 rfl
    · by_cases hmem : news_id row ∈ st.already
      · rw [if_pos hmem]; exact ih st hk r hr' hid hcrit
      · rw [if_neg hmem]
        by_cases hcrit2 : (is_critical_news row.headline row.content row.source).1 = true
        · rw [if_pos hcrit2, if_pos hph]
          by_cases hs : send phone (format_alert_message row) = true
          · rw [if_pos hs]
            have hne : news_id row ≠ k := by
              intro he
              rw [hfail row he] at hs
              exact Bool.noConfusion hs
            apply ih _ _ r hr' hid hcrit
            intro hk'
            rcases List.mem_append.1 hk' with hk'' | hk''
            · exact hk hk''
            · exact hne (List.mem_singleton.1 hk'').symm
          · rw [if_neg hs]
            exact ih _ hk r hr' hid hcrit
        · rw [if_neg hcrit2]; exact ih st hk r hr' hid hcrit

/-- C2 counterexample: with a non-empty batch and the *empty-string*
destination, `check_for_alerts` does not return `([], false)` untouched — the
`phone_number is None` test (src/alert_system.py:147) does not catch `""`, so
the call classifies the record into `critical_items` and saves a mutated
history (fresh `last_check`). -/
theorem empty_destination_not_short_circuit :
    (check_for_alerts (fun _ => none) (fun _ => "T") (fun _ _ => true)
      [{ source := "CERT-In", headline := "critical", content := "",
         date := "2024-01-01", url := none }] (some "")
      { alerts_sent := [], last_check := none } 0).critical_items ≠ [] ∧
    (check_for_alerts (fun _ => none) (fun _ => "T") (fun _ _ => true)
      [{ source := "CERT-In", headline := "critical", content := "",
         date := "2024-01-01", url := none }] (some "")
      { alerts_sent := [], last_check := none } 0).saved ≠ none := by
  constructor
  · decide
  · decide

/-- C2 amended: only an *absent* (`None`) destination short-circuits: then
`check_for_alerts` returns `([], false)` with no send and no history save, for
every batch. With the empty-string destination the code instead proceeds: it
sends nothing and reports `anySent = false`, but it classifies (so
`criticalItems` may be non-empty) and saves the history with an updated
`last_check` and unchanged `alerted_keys`. -/
theorem no_destination_short_circuit_amended :
    (∀ (fromiso : String → Option Int) (isofmt : Int → String)
        (send : String → String → Bool) (news : List NewsRecord)
        (history : AlertHistory) (now : Int),
      check_for_alerts fromiso isofmt send news none history now =
        { critical_items := [], any_sent := false, saved := none, sends := [] }) ∧
    (∀ (fromiso : String → Option Int) (isofmt : Int → String)
        (send : String → String → Bool) (news : List NewsRecord)
        (history : AlertHistory) (now : Int),
      (check_for_alerts fromiso isofmt send news (some "") history now).sends =
        [] ∧
      (check_for_alerts fromiso isofmt send news (some "") history now).any_sent =
        false ∧
      (check_for_alerts fromiso isofmt send news (some "") history now).saved =
        some { alerts_sent := history.alerts_sent,
               last_check := some (isofmt now) }) := by
  constructor
  · intro _ _ _ _ _ _; rfl
  · intro fromiso isofmt send news history now
    obtain ⟨ha, hb, hc⟩ := alertLoop_empty_phone send news
      { critical_items := [], alerts_sent := 0, already := history.alerts_sent,
        sends := [] }
    refine ⟨?_, ?_, ?_⟩
    · simp only [check_for_alerts]
      exact hc
    · simp only [check_for_alerts]
      rw [ha]
      rfl
    · simp only [check_for_alerts]
      rw [hb]

/-- C9: `last_check` does not interfere with behaviour — two loaded histories
with the same `alerted_keys` but any two `last_check` values (absent, empty,
malformed — the parse outcome is also varied via `fromiso`) give identical
results: same `critical_items`, same sends, same `any_sent`, and the same
saved history (whose `last_check` is freshly set to the current time either
way). The stored value is parsed into a local that the rest of the function
never reads (src/alert_system.py:158-166). -/
theorem last_check_noninterference
    (fromiso fromiso' : String → Option Int) (isofmt : Int → String)
    (send : String → String → Bool) (news : List NewsRecord)
    (phone_number : Option String) (keys : List String)
    (lc lc' : Option String) (now : Int) :
    check_for_alerts fromiso isofmt send news phone_number
        { alerts_sent := keys, last_check := lc } now =
      check_for_alerts fromiso' isofmt send news phone_number
        { alerts_sent := keys, last_check := lc' } now := by
  cases phone_number <;> rfl

/-- C1: idempotent deduplication. If the first run's send for identity key `k`
succeeded (so `k` entered the saved history), then a second run started from
that saved history never includes a record with key `k` in its
`critical_items` — the skip at src/alert_system.py:180 happens before
classification — and performs no send at all for `k`. -/
theorem dedup_second_run_skips
    (fromiso fromiso' : String → Option Int) (isofmt isofmt' : Int → String)
    (send send' : String → String → Bool) (news news' : List NewsRecord)
    (phone phone' : String) (h0 hsaved : AlertHistory) (now now' : Int)
    (k : String)
    (hsv : (check_for_alerts fromiso isofmt send news (some phone) h0 now).saved =
      some hsaved)
    (hsent : (k, true) ∈
      (check_for_alerts fromiso isofmt send news (some phone) h0 now).sends) :
    (∀ r ∈ (check_for_alerts fromiso' isofmt' send' news' (some phone') hsaved
        now').critical_items, news_id r ≠ k) ∧
    ∀ b, (k, b) ∉ (check_for_alerts fromiso' isofmt' send' news' (some phone')
        hsaved now').sends := by
  have hkey : k ∈ hsaved.alerts_sent := by
    simp only [check_for_alerts] at hsv hsent
    obtain ⟨extC, extA, extS, e1, e2, e3, p1, p2, p3⟩ :=
      alertLoop_ext send phone news
        { critical_items := [], alerts_sent := 0, already := h0.alerts_sent,
          sends := [] }
    rw [e3] at hsent
    rw [e2] at hsv
    obtain rfl := Option.some.inj hsv
    have hkA : k ∈ extA := (p3 k).2 (by simpa using hsent)
    exact List.mem_append_right _ hkA
  obtain ⟨extC, extA, extS, e1, e2, e3, p1, p2, p3⟩ :=
    alertLoop_ext send' phone' news'
      { critical_items := [], alerts_sent := 0, already := hsaved.alerts_sent,
        sends := [] }
  constructor
  · intro r hr hkeq
    simp only [check_for_alerts] at hr
    rw [e1] at hr
    refine p1 r (by simpa using hr) ?_
    rw [hkeq]
    exact hkey
  · intro b hb
    simp only [check_for_alerts] at hb
    rw [e3] at hb
    exact p2 k b (by simpa using hb) hkey

/-- Witness for `dedup_second_run_skips`: after a successful first run on a
single critical CERT-In record, the second run from the saved history performs
no send for its key. -/
theorem dedup_second_run_skips_witness :
    ("CERT-In:critical", true) ∉
      (check_for_alerts (fun _ => none) (fun _ => "T") (fun _ _ => true)
        [{ source := "CERT-In", headline := "critical", content := "",
           date := "2024-01-01", url := none }] (some "p")
        { alerts_sent := ["CERT-In:critical"], last_check := some "T" }
        0).sends :=
  (dedup_second_run_skips (fun _ => none) (fun _ => none) (fun _ => "T")
    (fun _ => "T") (fun _ _ => true) (fun _ _ => true)
    [{ source := "CERT-In", headline := "critical", content := "",
       date := "2024-01-01", url := none }]
    [{ source := "CERT-In", headline := "critical", content := "",
       date := "2024-01-01", url := none }] "p" "p"
    { alerts_sent := [], last_check := none }
    { alerts_sent := ["CERT-In:critical"], last_check := some "T" } 0 0
    "CERT-In:critical" (by decide) (by decide)).2 true

/-- C6: send-failure atomicity and retry. First conjunct: a key is in the
saved `alerted_keys` iff it was already there or a send for it returned
success during the run — in particular a failed send records nothing.
Second conjunct: with the same (deterministic) sender still failing for that
key, a critical record whose key is not in the saved history has a send
attempted (and logged as failing) again on the next invocation, so a failed
record is retried rather than lost, and the batch continues past it. -/
theorem send_failure_not_recorded_and_retried
    (fromiso fromiso' : String → Option Int) (isofmt isofmt' : Int → String)
    (send : String → String → Bool) (news news' : List NewsRecord)
    (phone : String) (h0 hsaved : AlertHistory) (now now' : Int)
    (hsv : (check_for_alerts fromiso isofmt send news (some phone) h0 now).saved =
      some hsaved) :
    (∀ k, k ∈ hsaved.alerts_sent ↔
      (k ∈ h0.alerts_sent ∨ (k, true) ∈
        (check_for_alerts fromiso isofmt send news (some phone) h0 now).sends)) ∧
    (∀ r ∈ news', news_id r ∉ hsaved.alerts_sent →
      (is_critical_news r.headline r.content r.source).1 = true →
      phone ≠ "" →
      (∀ r' : NewsRecord, news_id r' = news_id r →
        send phone (format_alert_message r') = false) →
      (news_id r, false) ∈
        (check_for_alerts fromiso' isofmt' send news' (some phone) hsaved
          now').sends) := by
  obtain ⟨extC, extA, extS, e1, e2, e3, p1, p2, p3⟩ :=
    alertLoop_ext send phone news
      { critical_items := [], alerts_sent := 0, already := h0.alerts_sent,
        sends := [] }
  constructor
  · intro k
    simp only [check_for_alerts] at hsv ⊢
    rw [e2] at hsv
    obtain rfl := Option.some.inj hsv
    rw [e3]
    simp [List.mem_append, p3 k]
  · intro r hr hnot hcrit hph hfail
    simp only [check_for_alerts]
    exact alertLoop_attempt send phone hph (news_id r) hfail news'
      { critical_items := [], alerts_sent := 0, already := hsaved.alerts_sent,
        sends := [] } hnot r hr rfl hcrit

/-- Witness for `send_failure_not_recorded_and_retried`: with an
always-failing sender, the first run on a critical record saves an empty key
set, and the second run attempts (and logs) the send for that record again. -/
theorem send_failure_retry_witness :
    ("CERT-In:critical", false) ∈
      (check_for_alerts (fun _ => none) (fun _ => "T") (fun _ _ => false)
        [{ source := "CERT-In", headline := "critical", content := "",
           date := "2024-01-01", url := none }] (some "p")
        { alerts_sent := [], last_check := some "T" } 0).sends :=
  (send_failure_not_recorded_and_retried (fun _ => none) (fun _ => none)
    (fun _ => "T") (fun _ => "T") (fun _ _ => false)
    [{ source := "CERT-In", headline := "critical", content := "",
       date := "2024-01-01", url := none }]
    [{ source := "CERT-In", headline := "critical", content := "",
       date := "2024-01-01", url := none }] "p"
    { alerts_sent := [], last_check := none }
    { alerts_sent := [], last_check := some "T" } 0 0 (by decide)).2
    { source := "CERT-In", headline := "critical", content := "",
      date := "2024-01-01", url := none }
    (by decide) (by decide) (by decide) (by decide) (fun _ _ => rfl)

/-- `insertDesc` permutes: inserting is adding the element. -/
theorem insertDesc_perm (x : DigestRow × Int) :
    ∀ l : List (DigestRow × Int), List.Perm (insertDesc x l) (x :: l) := by
  intro l
  induction l with
  | nil => simp [insertDesc]
  | cons y l ih =>
    by_cases h : x.2 ≤ y.2
    · rw [insertDesc, if_pos h]
      exact (List.Perm.cons y ih).trans (List.Perm.swap x y l)
    · rw [insertDesc, if_neg h]

/-- `insertDesc` preserves the descending-score ordering. -/
theorem insertDesc_pairwise (x : DigestRow × Int) {l : List (DigestRow × Int)}
    (hl : l.Pairwise (fun a b => b.2 ≤ a.2)) :
    (insertDesc x l).Pairwise (fun a b => b.2 ≤ a.2) := by
  induction l with
  | nil => simp [insertDesc]
  | cons y l ih =>
    obtain ⟨hy, hl'⟩ := List.pairwise_cons.1 hl
    by_cases hxy : x.2 ≤ y.2
    · rw [insertDesc, if_pos hxy]
      refine List.pairwise_cons.2 ⟨?_, ih hl'⟩
      intro z hz
      rcases List.mem_cons.1 ((insertDesc_perm x l).mem_iff.1 hz) with rfl | hzl
      · exact hxy
      · exact hy z hzl
    · rw [insertDesc, if_neg hxy]
      refine List.pairwise_cons.2 ⟨?_, hl⟩
      intro z hz
      rcases List.mem_cons.1 hz with rfl | hzl
      · exact le_of_lt (lt_of_not_le hxy)
      · exact le_trans (hy z hzl) (le_of_lt (lt_of_not_le hxy))

/-- Stability of one insertion, phrased through score-level filters: on a
descending-sorted list, inserting `x` appends it after every element of equal
score and leaves the other score classes untouched. -/
theorem insertDesc_filter (x : DigestRow × Int) (v : Int) :
    ∀ l : List (DigestRow × Int), l.Pairwise (fun a b => b.2 ≤ a.2) →
      (insertDesc x l).filter (fun p => p.2 == v) =
        if x.2 = v then l.filter (fun p => p.2 == v) ++ [x]
        else l.filter (fun p => p.2 == v) := by
  intro l
  induction l with
  | nil =>
    intro _
    by_cases hx : x.2 = v <;> simp [insertDesc, List.filter_singleton, hx]
  | cons y l ih =>
    intro hl
    obtain ⟨hy, hl'⟩ := List.pairwise_cons.1 hl
    by_cases hxy : x.2 ≤ y.2
    · rw [insertDesc, if_pos hxy]
      rw [List.filter_cons, List.filter_cons, ih hl']
      by_cases hyv : y.2 = v <;> by_cases hxv : x.2 = v <;>
        simp [hyv, hxv]
    · rw [insertDesc, if_neg hxy]
      have hlt : y.2 < x.2 := lt_of_not_le hxy
      by_cases hxv : x.2 = v
      · have hyv : y.2 ≠ v := by
          rw [← hxv]
          exact ne_of_lt hlt
        have hfl : l.filter (fun p => p.2 == v) = [] := by
          refine List.filter_eq_nil_iff.2 ?_
          intro z hz
          have hzle : z.2 ≤ y.2 := hy z hz
          have hzv : z.2 ≠ v := by
            rw [← hxv]
            exact ne_of_lt (lt_of_le_of_lt hzle hlt)
          simpa using hzv
        simp [List.filter_cons, hxv, hyv, hfl]
      · simp [List.filter_cons, hxv]

/-- The insertion fold keeps the accumulator sorted descending by score. -/
theorem foldl_insertDesc_pairwise :
    ∀ (l acc : List (DigestRow × Int)),
      acc.Pairwise (fun a b => b.2 ≤ a.2) →
      (l.foldl (fun acc x => insertDesc x acc) acc).Pairwise
        (fun a b => b.2 ≤ a.2) := by
  intro l
  induction l with
  | nil => intro acc hacc; simpa using hacc
  | cons x l ih => intro acc hacc; exact ih _ (insertDesc_pairwise x hacc)

/-- The insertion fold permutes its input onto the accumulator. -/
theorem foldl_insertDesc_perm :
    ∀ (l acc : List (DigestRow × Int)),
      List.Perm (l.foldl (fun acc x => insertDesc x acc) acc) (l ++ acc) := by
  intro l
  induction l with
  | nil => intro acc; simp
  | cons x l ih =>
    intro acc
    have h2 : List.Perm (l ++ insertDesc x acc) (l ++ (x :: acc)) :=
      List.Perm.append_left l (insertDesc_perm x acc)
    exact (ih (insertDesc x acc)).trans (h2.trans List.perm_middle)

/-- Stability of the insertion fold: each score class of the result is the
score class of the accumulator followed by the score class of the input, both
in their original order. -/
theorem foldl_insertDesc_filter (v : Int) :
    ∀ (l acc : List (DigestRow × Int)),
      acc.Pairwise (fun a b => b.2 ≤ a.2) →
      (l.foldl (fun acc x => insertDesc x acc) acc).filter (fun p => p.2 == v) =
        acc.filter (fun p => p.2 == v) ++ l.filter (fun p => p.2 == v) := by
  intro l
  induction l with
  | nil => intro acc _; simp
  | cons x l ih =>
    intro acc hacc
    have h1 := ih (insertDesc x acc) (insertDesc_pairwise x hacc)
    rw [insertDesc_filter x v acc hacc] at h1
    by_cases hxv : x.2 = v
    · rw [if_pos hxv] at h1
      have h2 : (x :: l).filter (fun p => p.2 == v) =
          x :: l.filter (fun p => p.2 == v) := by
        simp [List.filter_cons, hxv]
      rw [List.foldl_cons, h1, h2]
      simp [List.append_assoc]
    · rw [if_neg hxv] at h1
      have h2 : (x :: l).filter (fun p => p.2 == v) =
          l.filter (fun p => p.2 == v) := by
        simp [List.filter_cons, hxv]
      rw [List.foldl_cons, h1, h2]

/-- `sortDesc` output is sorted descending by score. -/
theorem sortDesc_pairwise (l : List (DigestRow × Int)) :
    (sortDesc l).Pairwise (fun a b => b.2 ≤ a.2) :=
  foldl_insertDesc_pairwise l [] List.Pairwise.nil

/-- `sortDesc` is a permutation. -/
theorem sortDesc_perm (l : List (DigestRow × Int)) :
    List.Perm (sortDesc l) l := by
  have h := foldl_insertDesc_perm l []
  simpa [sortDesc] using h

/-- `sortDesc` is stable: elements of equal score keep their original relative
order. -/
theorem sortDesc_filter (l : List (DigestRow × Int)) (v : Int) :
    (sortDesc l).filter (fun p => p.2 == v) = l.filter (fun p => p.2 == v) := by
  have h := foldl_insertDesc_filter v l [] List.Pairwise.nil
  simpa [sortDesc] using h

/-- Digest example row A: "The Hindu" (5 points) + keyword "critical" (10),
score 15. -/
def digestRowA : DigestRow :=
  { source := "The Hindu", headline := Cell.str "critical",
    content := Cell.str "" }

/-- Digest example row B: "CERT-In" (10 points) + "urgent" (10) + "critical"
(10), score 30. -/
def digestRowB : DigestRow :=
  { source := "CERT-In", headline := Cell.str "urgent critical",
    content := Cell.str "" }

/-- Digest example row C: "Times of India" (5 points) + "critical" (10),
score 15. -/
def digestRowC : DigestRow :=
  { source := "Times of India", headline := Cell.str "critical",
    content := Cell.str "" }

/-- C5: digest postcondition. The sorted candidate list is descending by
score, stable (each score class keeps input order), and a permutation of the
threshold-filtered scored rows; `get_critical_news_digest` is its `max_items`
prefix; every returned item carries its true score and meets the fixed
threshold 10; and on records scoring [15, 30, 15] in input order, the digest
with `max_items = 2` is `[B(30), A(15)]` — the tie at the cutoff is broken by
input order. -/
theorem digest_postcondition :
    (∀ rows : List DigestRow,
      (sortDesc (scored_items rows)).Pairwise (fun a b => b.2 ≤ a.2)) ∧
    (∀ (rows : List DigestRow) (v : Int),
      (sortDesc (scored_items rows)).filter (fun p => p.2 == v) =
        (scored_items rows).filter (fun p => p.2 == v)) ∧
    (∀ rows : List DigestRow,
      List.Perm (sortDesc (scored_items rows)) (scored_items rows)) ∧
    (∀ (rows : List DigestRow) (max_items : Nat),
      get_critical_news_digest rows max_items =
        (sortDesc (scored_items rows)).take max_items) ∧
    (∀ (rows : List DigestRow) (max_items : Nat),
      ∀ p ∈ get_critical_news_digest rows max_items,
        10 ≤ p.2 ∧ p.2 = criticality_score p.1) ∧
    (criticality_score digestRowA = 15 ∧ criticality_score digestRowB = 30 ∧
      criticality_score digestRowC = 15 ∧
      get_critical_news_digest [digestRowA, digestRowB, digestRowC] 2 =
        [(digestRowB, 30), (digestRowA, 15)]) := by
  refine ⟨fun rows => sortDesc_pairwise _, fun rows v => sortDesc_filter _ _,
    fun rows => sortDesc_perm _, fun _ _ => rfl, ?_, by decide⟩
  intro rows max_items p hp
  have hp1 : p ∈ sortDesc (scored_items rows) := List.mem_of_mem_take hp
  have hp2 : p ∈ scored_items rows := (sortDesc_perm _).mem_iff.1 hp1
  have hp3 := List.mem_filter.1 hp2
  constructor
  · simpa using hp3.2
  · obtain ⟨r, hr, hre⟩ := List.mem_map.1 hp3.1
    rw [← hre]
